import Mathlib

/-!
Verification of the griselbrand daemon core (a Clipanion daemon helper).

The development shallowly embeds the `Daemon` class of the source: the
error codec (`errorToSerializable` / `serializableToError`), the
connection manager (`Daemon.open`), the status check (`Daemon.status`),
the worker-side restart guard (`Daemon.restart`), the worker session
handler (the `message` listener installed in `Daemon.runExit`, and the
`close` listener of each accepted connection), and the client-side
request correlation table (`Daemon.messages`, driven by the `message`
listener installed in `Daemon.request` and by id allocation in
`Daemon.send`).

External effects (websockets, child processes, timers, the JS runtime's
stack capture) are modelled as explicit parameters: a connection attempt
is an outcome value, a spawn is an outcome value, stack capture is a
function from message to optional stack text. Asynchronous handlers are
modelled by their eventual outcome. Each definition mirrors one place in
the source, noted in its doc comment.
-/

namespace Griselbrand

/-- Minimal model of an arbitrary JavaScript value carried as message
payload data (`payload.data`, handler return values, thrown non-errors
are written out via their JSON text). -/
inductive JVal where
  | undef : JVal
  | str : String → JVal
  | num : Int → JVal
  | raw : Nat → JVal
deriving DecidableEq, Repr

/-- Model of a JavaScript `Error` object as the daemon observes it: its
`message`, its `stack` (optional: an assignment can set it to
`undefined`), and whether it is an instance of clipanion's `UsageError`
class (`isUsage` stands for the `instanceof UsageError` test). -/
structure JSError where
  message : String
  stack : Option String
  isUsage : Bool
deriving DecidableEq, Repr

/-- A value that reaches the codec's entry point: either an `Error`
instance or any other value, represented by its `JSON.stringify` text
(the source only ever reads that text of a non-error). -/
inductive JSValue where
  | err : JSError → JSValue
  | other : String → JSValue
deriving DecidableEq, Repr

/-- The wire form of a failure, source type `SerializedError`:
`{message: string; stack?: string; isUsage: boolean}`. -/
structure SerializedError where
  message : String
  stack : Option String
  isUsage : Bool
deriving DecidableEq, Repr

/-- A stack generator stands for the JS runtime's stack capture when a
fresh `Error` is constructed: `stackGen msg` is the `stack` of
`new Error(msg)`. It is an arbitrary parameter of the model. -/
abbrev StackGen := String → Option String

/-- Source `errorToSerializable` (part_002 lines 505-515): wrap a
non-error value in `new Error("Not an error: " + JSON.stringify(data))`,
then project `{message, stack, isUsage: error instanceof UsageError}`.
The freshly constructed wrapper is a plain `Error`, so its `isUsage`
projection is `false`. -/
def errorToSerializable (sg : StackGen) (data : JSValue) : SerializedError :=
  match data with
  | .err e => { message := e.message, stack := e.stack, isUsage := e.isUsage }
  | .other json =>
      let msg := "Not an error: " ++ json
      { message := msg, stack := sg msg, isUsage := false }

/-- Source `serializableToError` (part_002 lines 517-522): pick
`UsageError` when `isUsage` else `Error`, construct it with the carried
message, then overwrite its `stack` with the carried stack (also when
that is absent). -/
def serializableToError (data : SerializedError) : JSError :=
  { message := data.message, stack := data.stack, isUsage := data.isUsage }

/-- Outcome of one websocket connection attempt made by
`Daemon.request`: an open socket, or a rejection whose `err.message` is
the given text (a refused connect carries a message starting with
"connect ECONNREFUSED"). -/
inductive ConnOutcome where
  | ok : ConnOutcome
  | err : String → ConnOutcome
deriving DecidableEq, Repr

/-- The marker tested by `Daemon.open`, `Daemon.status` and
`Daemon.stop`: `err.message.startsWith("connect ECONNREFUSED")`.
JS `String.prototype.startsWith` is the character-prefix test, written
here over the strings' character lists. -/
def isConnRefused (msg : String) : Bool :=
  "connect ECONNREFUSED".data.isPrefixOf msg.data

/-- Source `Daemon.open` (part_002 lines 407-418), with the two connect
attempts and the spawn modelled by their outcomes. First `request()` is
awaited; on success it is returned with no spawn. On failure, when the
message is a refused-connect marker and `autoSpawn` holds, `spawn()` is
awaited (a spawn rejection propagates) and `request()` is retried once,
whatever it yields propagating; otherwise the original error is
rethrown. The second component counts the `spawn()` invocations. -/
def Daemon.openConn (autoSpawn : Bool) (attempt1 : ConnOutcome)
    (spawnRes : Except String Unit) (attempt2 : ConnOutcome) :
    Except String Unit × Nat :=
  match attempt1 with
  | .ok => (.ok (), 0)
  | .err msg =>
      if isConnRefused msg && autoSpawn then
        match spawnRes with
        | .error e => (.error e, 1)
        | .ok () =>
            match attempt2 with
            | .ok => (.ok (), 1)
            | .err msg2 => (.error msg2, 1)
      else
        (.error msg, 0)

/-- Rendering of a possibly-absent string inside a JS template literal:
an undefined value prints as the text "undefined". -/
def jsShow : Option String → String
  | some s => s
  | none => "undefined"

/-- Source expression building clipanion's `UsageError` (a fresh error
whose `instanceof UsageError` test holds, with a runtime-captured
stack). -/
def newUsageError (sg : StackGen) (msg : String) : JSError :=
  { message := msg, stack := sg msg, isUsage := true }

/-- The version-mismatch text produced in the `cli` branch of the
worker's message listener (part_002 line 376). -/
def mismatchMessage (payloadVersion binaryVersion : Option String) : String :=
  "Mismatched binary versions (cli is " ++ jsShow payloadVersion ++
    ", whereas the daemon is " ++ jsShow binaryVersion ++ ")"

/-- An inbound worker-side payload after `JSON.parse`, dispatched on its
`type` tag (part_002 lines 343-390); `other` stands for any tag the
switch does not handle. -/
inductive WPayload where
  | message : Nat → JVal → WPayload
  | status : WPayload
  | stop : WPayload
  | cli : List String → Option String → JVal → WPayload
  | other : String → WPayload
deriving DecidableEq, Repr

/-- A payload the worker sends back over the session's socket. -/
inductive OutPayload where
  | statusReply : String → OutPayload
  | errorP : SerializedError → OutPayload
  | stdoutP : String → OutPayload
  | exitP : Int → OutPayload
  | messageYield : Nat → JVal → OutPayload
  | messageResolve : Nat → JVal → OutPayload
  | messageReject : Nat → SerializedError → OutPayload
deriving DecidableEq, Repr

/-- An observable action of the worker's per-frame message listener:
sending a payload, closing this client's socket (`ws.close()`), closing
the listening server (`wss.close()`), starting the requested command
body (`cli.run(payload.args, ...)`), or invoking the registered custom
handler (`this.onMessage(payload.data, ...)`). -/
inductive WAction where
  | send : OutPayload → WAction
  | closeConn : WAction
  | closeServer : WAction
  | runCli : List String → WAction
  | runOnMessage : JVal → WAction
deriving DecidableEq, Repr

/-- Ambient data of one worker-side frame dispatch: the CLI's declared
`binaryVersion`, the runtime stack capture, whether `this.onMessage` is
registered, and the eventual outcomes of the asynchronous custom-handler
and command-body invocations (a thrown value or a result). -/
structure WorkerEnv where
  binaryVersion : Option String
  sg : StackGen
  hasOnMessage : Bool
  onMessageResult : Except JSValue JVal
  cliResult : Except JSValue Int

/-- Source: the `message` listener installed per accepted connection in
`Daemon.runExit` (part_002 lines 323-391). A frame whose body is not
valid JSON (`raw = none`) is logged, the socket is closed, and the
listener returns before the dispatch switch. Otherwise dispatch on the
tag: `message` awaits the optional custom handler and sends
`message/resolve` on success (an unregistered handler yields
`undefined`) or `message/reject` with the encoded thrown value;
`status` replies with `binaryVersion ?? "<unknown>"`; `stop` closes the
listening server; `cli` first compares `payload.version` against
`cli.binaryVersion` and on mismatch sends an encoded `UsageError` and
returns, else runs the command body and later sends the terminal `exit`
or `error` payload (the intermediate `stdout` chunks the body may emit
while running are not modelled); an unknown tag does nothing. -/
def handleFrame (env : WorkerEnv) (raw : Option WPayload) : List WAction :=
  match raw with
  | none => [.closeConn]
  | some p =>
      match p with
      | .message id data =>
          if env.hasOnMessage then
            match env.onMessageResult with
            | .ok res => [.runOnMessage data, .send (.messageResolve id res)]
            | .error e =>
                [.runOnMessage data,
                 .send (.messageReject id (errorToSerializable env.sg e))]
          else
            [.send (.messageResolve id JVal.undef)]
      | .status => [.send (.statusReply (env.binaryVersion.getD "<unknown>"))]
      | .stop => [.closeServer]
      | .cli args version _context =>
          if version ≠ env.binaryVersion then
            [.send (.errorP (errorToSerializable env.sg
              (.err (newUsageError env.sg (mismatchMessage version env.binaryVersion)))))]
          else
            [.runCli args,
             match env.cliResult with
             | .ok code => .send (.exitP code)
             | .error e => .send (.errorP (errorToSerializable env.sg e))]
      | .other _ => []

/-- Worker-side state of one accepted connection (source: the
`clientStatus` record and `onClientDisconnect` set created per
connection in `Daemon.runExit`, lines 310-312). Hooks are named by
numbers; a JS `Set` iterates them in insertion order. -/
structure ClientSession where
  connected : Bool
  hooks : List Nat
deriving DecidableEq, Repr

/-- An observable step of the connection's `close` listener. -/
inductive SEvent where
  | setDisconnected : SEvent
  | runHook : Nat → SEvent
  | signalClosed : SEvent
deriving DecidableEq, Repr

/-- Source: the `close` listener of an accepted connection (part_002
lines 314-321): set `clientStatus.connected = false`, then await each
registered disconnect hook in iteration order, then `resolve()` the
worker-level promise ("a connection ended"). The event list records the
execution order; the for-await loop finishes one hook before starting
the next, so the hooks appear in insertion order. -/
def onTransportClose (s : ClientSession) : ClientSession × List SEvent :=
  ({ s with connected := false },
   SEvent.setDisconnected :: (s.hooks.map SEvent.runHook ++ [SEvent.signalClosed]))

/-- The client-side request correlation table `Daemon.messages`, modelled
by the ids of its currently pending entries (each entry's callbacks are
identified by its id: the events below record their invocations). -/
abbrev MsgTable := List Nat

/-- Removal of a key, source `this.messages.delete(payload.id)`. -/
def msgDelete (t : MsgTable) (id : Nat) : MsgTable :=
  t.filter (fun x => x != id)

/-- A transport event observed by a client connection: one of the three
correlated frames handled by the `message` listener installed in
`Daemon.request` (part_002 lines 460-492), or the socket closing.
The source installs no `close` listener in `Daemon.request` (nor does
`Daemon.send`), so `closeF` reaches no daemon code at all. -/
inductive CFrame where
  | yieldF : Nat → JVal → CFrame
  | resolveF : Nat → JVal → CFrame
  | rejectF : Nat → SerializedError → CFrame
  | closeF : CFrame
deriving DecidableEq, Repr

/-- An invocation of a pending entry's stored callbacks: a stream
handler call (`message/yield`), the `resolve` call, or the `reject` call
with the decoded failure. -/
inductive CEvent where
  | streamed : Nat → JVal → CEvent
  | resolved : Nat → JVal → CEvent
  | rejected : Nat → JSError → CEvent
deriving DecidableEq, Repr

/-- Source: one frame through the `message` listener of `Daemon.request`
(part_002 lines 460-492). Each branch first looks the id up and breaks
when it is absent; `message/yield` invokes the entry's stream handlers
and keeps the entry; `message/resolve` and `message/reject` delete the
entry from the table and only then invoke the stored callback
(rejection decodes the carried failure with `serializableToError`).
A `closeF` event runs no daemon code: the table and callbacks are
untouched. -/
def clientStep (t : MsgTable) (f : CFrame) : MsgTable × List CEvent :=
  match f with
  | .yieldF id d => if id ∈ t then (t, [.streamed id d]) else (t, [])
  | .resolveF id d =>
      if id ∈ t then (msgDelete t id, [.resolved id d]) else (t, [])
  | .rejectF id e =>
      if id ∈ t then (msgDelete t id, [.rejected id (serializableToError e)])
      else (t, [])
  | .closeF => (t, [])

/-- Folding `clientStep` over a sequence of transport events, collecting
every callback invocation in order. -/
def clientRun (t : MsgTable) (fs : List CFrame) : MsgTable × List CEvent :=
  match fs with
  | [] => (t, [])
  | f :: rest =>
      let st := clientStep t f
      let rest2 := clientRun st.1 rest
      (rest2.1, st.2 ++ rest2.2)

/-- Source: the id allocation loop of `Daemon.send` (part_002 lines
185-188): draw random 32-bit numbers until one is not a key of
`this.messages`. The draws are a parameter; the result is the first
draw not currently pending (`none` when the finite draw list is
exhausted). -/
def allocateId (t : MsgTable) (draws : List Nat) : Option Nat :=
  draws.find? (fun c => decide (c ∉ t))

/-- Whether an event is the terminal callback delivery for `id`. -/
def isTerminalFor (id : Nat) : CEvent → Bool
  | .resolved j _ => j == id
  | .rejected j _ => j == id
  | .streamed _ _ => false

/-- An inbound payload observed while `Daemon.status` waits for its
reply: its promise resolves at the first `status`-tagged payload and
ignores every other tag. -/
inductive StatusInbound where
  | statusP : String → StatusInbound
  | otherP : String → StatusInbound
deriving DecidableEq, Repr

/-- Whether any inbound payload in the window is `status`-tagged (the
only tag the reply listener of `Daemon.status` reacts to). -/
def hasStatusReply (inbound : List StatusInbound) : Bool :=
  inbound.any (fun p =>
    match p with
    | .statusP _ => true
    | .otherP _ => false)

/-- Source `Daemon.status` (part_002 lines 136-171): open a connection
with `autoSpawn: false`; when that fails with a refused-connect message
return `null` (here `Except.ok none`), otherwise rethrow. Once
connected, send the status query and race the reply listener against a
3-second timer: the first `status`-tagged inbound payload resolves with
its version; if none arrives within the window the call fails with
`Error("Timeout reached")`. The second component counts `spawn()`
invocations made on the way. -/
def Daemon.status (attempt1 : ConnOutcome) (spawnRes : Except String Unit)
    (attempt2 : ConnOutcome) (inbound : List StatusInbound) :
    Except String (Option String) × Nat :=
  let o := Daemon.openConn false attempt1 spawnRes attempt2
  match o.1 with
  | .error msg => if isConnRefused msg then (.ok none, o.2) else (.error msg, o.2)
  | .ok () =>
      match inbound.findSome? (fun p =>
          match p with
          | .statusP v => some v
          | .otherP _ => none) with
      | some v => (.ok (some v), o.2)
      | none => (.error "Timeout reached", o.2)

/-- Worker-side process state relevant to `restart`: the one-shot
reboot guard, whether the listening server is open, and how many times
`spawn()` has been invoked. -/
structure WorkerState where
  rebootInProgress : Bool
  listening : Bool
  spawnCount : Nat
deriving DecidableEq, Repr

/-- A primitive step the worker-side `restart` body performs. -/
inductive RStep where
  | setGuard : RStep
  | closeSocket : RStep
  | spawnSuccessor : RStep
deriving DecidableEq, Repr

/-- Source: the worker-side branch of `Daemon.restart` (part_002 lines
227-232): when the guard is unset, set it, close the listening server
(`this.wss?.close()`), and await `spawn()` — the guard assignment and
the close are synchronous, before the first suspension point (the
`await`), and the guard is never cleared afterwards, also when the
spawn fails. When the guard is already set the call does nothing. -/
def Daemon.restart (s : WorkerState) : WorkerState × List RStep :=
  if s.rebootInProgress then (s, [])
  else
    ({ rebootInProgress := true, listening := false, spawnCount := s.spawnCount + 1 },
     [.setGuard, .closeSocket, .spawnSuccessor])

/-- A sequence of `n` worker-side restart requests handled one after the
other, collecting every primitive step performed. -/
def Daemon.restartRun (s : WorkerState) (n : Nat) : WorkerState × List RStep :=
  match n with
  | 0 => (s, [])
  | n + 1 =>
      let st := Daemon.restart s
      let rest := Daemon.restartRun st.1 n
      (rest.1, st.2 ++ rest.2)

/-! Helper lemmas shared by the claim theorems. -/

/-- A deleted id is gone from the table. -/
lemma not_mem_msgDelete_self (t : MsgTable) (id : Nat) : id ∉ msgDelete t id := by
  simp [msgDelete]

/-- Deletion of one key keeps every other key's membership. -/
lemma mem_msgDelete_of_ne {t : MsgTable} {x id : Nat} (hx : x ∈ t) (hne : x ≠ id) :
    x ∈ msgDelete t id := by
  simp [msgDelete, hx, hne]

/-- The table only ever shrinks under a transport event. -/
lemma mem_of_mem_clientStep {t : MsgTable} {f : CFrame} {x : Nat}
    (h : x ∈ (clientStep t f).1) : x ∈ t := by
  cases f with
  | yieldF j d =>
      by_cases hj : j ∈ t <;> simpa [clientStep, hj] using h
  | resolveF j d =>
      by_cases hj : j ∈ t
      · simp [clientStep, hj, msgDelete] at h
        exact h.1
      · simpa [clientStep, hj] using h
  | rejectF j e =>
      by_cases hj : j ∈ t
      · simp [clientStep, hj, msgDelete] at h
        exact h.1
      · simpa [clientStep, hj] using h
  | closeF => simpa [clientStep] using h

/-- A run started without `id` pending never delivers a terminal
callback for `id`. -/
lemma clientRun_no_terminal_of_not_mem (id : Nat) :
    ∀ (fs : List CFrame) (t : MsgTable), id ∉ t →
      ((clientRun t fs).2.countP (isTerminalFor id)) = 0 := by
  intro fs
  induction fs with
  | nil => intro t _; simp [clientRun]
  | cons f rest ih =>
      intro t ht
      have hstep : id ∉ (clientStep t f).1 := fun hmem => ht (mem_of_mem_clientStep hmem)
      have htail := ih (clientStep t f).1 hstep
      simp only [clientRun, List.countP_append]
      rw [htail]
      cases f with
      | yieldF j d =>
          by_cases hj : j ∈ t <;> simp [clientStep, hj, isTerminalFor]
      | resolveF j d =>
          by_cases hj : j ∈ t
          · have hne : j ≠ id := fun hji => ht (hji ▸ hj)
            simp [clientStep, hj, List.countP_cons, isTerminalFor, hne]
          · simp [clientStep, hj]
      | rejectF j e =>
          by_cases hj : j ∈ t
          · have hne : j ≠ id := fun hji => ht (hji ▸ hj)
            simp [clientStep, hj, List.countP_cons, isTerminalFor, hne]
          · simp [clientStep, hj]
      | closeF => simp [clientStep]

/-- Any run delivers the terminal callback of a given id at most once. -/
lemma clientRun_terminal_le_one (id : Nat) :
    ∀ (fs : List CFrame) (t : MsgTable),
      ((clientRun t fs).2.countP (isTerminalFor id)) ≤ 1 := by
  intro fs
  induction fs with
  | nil => intro t; simp [clientRun]
  | cons f rest ih =>
      intro t
      simp only [clientRun, List.countP_append]
      cases f with
      | yieldF j d =>
          by_cases hj : j ∈ t <;>
            simpa [clientStep, hj, isTerminalFor] using ih (clientStep t (.yieldF j d)).1
      | resolveF j d =>
          by_cases hj : j ∈ t
          · by_cases hji : j = id
            · subst hji
              have hzero := clientRun_no_terminal_of_not_mem j rest (msgDelete t j)
                (not_mem_msgDelete_self t j)
              simp [clientStep, hj, List.countP_cons, isTerminalFor, hzero]
            · have := ih (clientStep t (.resolveF j d)).1
              simpa [clientStep, hj, List.countP_cons, isTerminalFor, hji] using this
          · simpa [clientStep, hj] using ih t
      | rejectF j e =>
          by_cases hj : j ∈ t
          · by_cases hji : j = id
            · subst hji
              have hzero := clientRun_no_terminal_of_not_mem j rest (msgDelete t j)
                (not_mem_msgDelete_self t j)
              simp [clientStep, hj, List.countP_cons, isTerminalFor, hzero]
            · have := ih (clientStep t (.rejectF j e)).1
              simpa [clientStep, hj, List.countP_cons, isTerminalFor, hji] using this
          · simpa [clientStep, hj] using ih t
      | closeF => simpa [clientStep] using ih t

/-- When no `status`-tagged payload is in the window, the reply scan of
`Daemon.status` finds nothing. -/
lemma findSome_status_eq_none {inbound : List StatusInbound}
    (h : hasStatusReply inbound = false) :
    inbound.findSome? (fun p =>
      match p with
      | .statusP v => some v
      | .otherP _ => none) = none := by
  induction inbound with
  | nil => rfl
  | cons p rest ih =>
      cases p with
      | statusP v => simp [hasStatusReply] at h
      | otherP s =>
          simp [hasStatusReply] at h ih ⊢
          exact ih h

/-- Once the reboot guard is set, any further sequence of worker-side
restart requests changes nothing and performs no step. -/
lemma restartRun_guarded :
    ∀ (n : Nat) (s : WorkerState), s.rebootInProgress = true →
      Daemon.restartRun s n = (s, []) := by
  intro n
  induction n with
  | zero => intro s _; rfl
  | succ m ih =>
      intro s hs
      have hstep : Daemon.restart s = (s, []) := by simp [Daemon.restart, hs]
      simp [Daemon.restartRun, hstep, ih s hs]

/-! Claim theorems. -/

/-- C2: encoding any failure value with `errorToSerializable` and
decoding the result with `serializableToError` preserves the failure's
kind (the `UsageError` discriminator), its message, and its trace: in
particular a user-facing failure round-trips to a user-facing failure
with the original message, and a non-user-facing failure round-trips to
a non-user-facing failure with its message and trace intact. -/
theorem errorCodec_roundtrip (sg : StackGen) (e : JSError) :
    (serializableToError (errorToSerializable sg (JSValue.err e))).isUsage = e.isUsage ∧
    (serializableToError (errorToSerializable sg (JSValue.err e))).message = e.message ∧
    (serializableToError (errorToSerializable sg (JSValue.err e))).stack = e.stack :=
  ⟨rfl, rfl, rfl⟩

/-- C9: a `status`-tagged message reaching a worker whose CLI declares
no binary version is answered with the literal version string
"<unknown>", never an absent field; with a declared version the reply
carries exactly that string. -/
theorem statusReply_version :
    (∀ (sg : StackGen) (hom : Bool) (omr : Except JSValue JVal) (cr : Except JSValue Int),
      handleFrame ⟨none, sg, hom, omr, cr⟩ (some WPayload.status) =
        [WAction.send (OutPayload.statusReply "<unknown>")]) ∧
    (∀ (v : String) (sg : StackGen) (hom : Bool) (omr : Except JSValue JVal)
        (cr : Except JSValue Int),
      handleFrame ⟨some v, sg, hom, omr, cr⟩ (some WPayload.status) =
        [WAction.send (OutPayload.statusReply v)]) :=
  ⟨fun _ _ _ _ => rfl, fun _ _ _ _ _ => rfl⟩

/-- C10: a frame whose body fails JSON parsing makes the worker close
that client's socket and nothing else: no reply is sent, the listening
server is untouched, and neither a command body nor the custom message
handler is invoked. -/
theorem malformedFrame_closes (env : WorkerEnv) :
    handleFrame env none = [WAction.closeConn] ∧
    (∀ p, WAction.send p ∉ handleFrame env none) ∧
    WAction.closeServer ∉ handleFrame env none ∧
    (∀ args, WAction.runCli args ∉ handleFrame env none) ∧
    (∀ d, WAction.runOnMessage d ∉ handleFrame env none) := by
  refine ⟨rfl, ?_, ?_, ?_, ?_⟩ <;> simp [handleFrame]

/-- C1: the connection-opening policy of `Daemon.open`. A refused first
attempt with `autoSpawn` on invokes spawn exactly once and retries the
connect exactly once, the second attempt's outcome (also a failure)
propagating as is; a refused first attempt with `autoSpawn` off
propagates the refusal without spawning; a first attempt failing for
any other reason propagates without spawning whatever `autoSpawn` is. -/
theorem openConn_spawn_retry_policy (msg m2 : String) (spawnRes : Except String Unit)
    (attempt2 : ConnOutcome) (autoSpawn : Bool) :
    (isConnRefused msg = true →
      Daemon.openConn true (ConnOutcome.err msg) (Except.ok ()) ConnOutcome.ok =
        (Except.ok (), 1) ∧
      Daemon.openConn true (ConnOutcome.err msg) (Except.ok ()) (ConnOutcome.err m2) =
        (Except.error m2, 1)) ∧
    (isConnRefused msg = true →
      Daemon.openConn false (ConnOutcome.err msg) spawnRes attempt2 =
        (Except.error msg, 0)) ∧
    (isConnRefused msg = false →
      Daemon.openConn autoSpawn (ConnOutcome.err msg) spawnRes attempt2 =
        (Except.error msg, 0)) := by
  refine ⟨fun h => ?_, fun h => ?_, fun h => ?_⟩
  · constructor <;> simp [Daemon.openConn, h]
  · simp [Daemon.openConn, h]
  · simp [Daemon.openConn, h]

set_option maxRecDepth 8192 in
/-- Witness for C1 at concrete outcomes: a refused connect message, a
successful spawn, each second-attempt outcome, and a non-refused
transport failure. -/
theorem openConn_spawn_retry_policy_witness :
    Daemon.openConn true (ConnOutcome.err "connect ECONNREFUSED 127.0.0.1:6532")
        (Except.ok ()) ConnOutcome.ok = (Except.ok (), 1) ∧
    Daemon.openConn true (ConnOutcome.err "connect ECONNREFUSED 127.0.0.1:6532")
        (Except.ok ()) (ConnOutcome.err "connect ECONNREFUSED 127.0.0.1:6532") =
      (Except.error "connect ECONNREFUSED 127.0.0.1:6532", 1) ∧
    Daemon.openConn false (ConnOutcome.err "connect ECONNREFUSED 127.0.0.1:6532")
        (Except.ok ()) ConnOutcome.ok =
      (Except.error "connect ECONNREFUSED 127.0.0.1:6532", 0) ∧
    Daemon.openConn true (ConnOutcome.err "socket hang up") (Except.ok ())
        ConnOutcome.ok = (Except.error "socket hang up", 0) := by
  have h1 := (openConn_spawn_retry_policy "connect ECONNREFUSED 127.0.0.1:6532"
    "connect ECONNREFUSED 127.0.0.1:6532" (Except.ok ()) ConnOutcome.ok true).1
    (by decide)
  have h2 := (openConn_spawn_retry_policy "connect ECONNREFUSED 127.0.0.1:6532"
    "" (Except.ok ()) ConnOutcome.ok true).2.1 (by decide)
  have h3 := (openConn_spawn_retry_policy "socket hang up" "" (Except.ok ())
    ConnOutcome.ok true).2.2 (by decide)
  exact ⟨h1.1, h1.2, h2, h3⟩

/-- C6: `Daemon.status` opens with `autoSpawn: false` and thus never
invokes spawn on any input; a refused connect yields the distinguished
"not running" result (`null`, here `Except.ok none`); any other
connection failure propagates; and when no `status` reply arrives
within the window the call fails with the timeout failure, which is
distinct from the "not running" result. -/
theorem status_policy (msg : String) (spawnRes : Except String Unit)
    (attempt2 : ConnOutcome) (inbound : List StatusInbound) (attempt1 : ConnOutcome) :
    ((Daemon.status attempt1 spawnRes attempt2 inbound).2 = 0) ∧
    (isConnRefused msg = true →
      Daemon.status (ConnOutcome.err msg) spawnRes attempt2 inbound =
        (Except.ok none, 0)) ∧
    (isConnRefused msg = false →
      Daemon.status (ConnOutcome.err msg) spawnRes attempt2 inbound =
        (Except.error msg, 0)) ∧
    (hasStatusReply inbound = false →
      Daemon.status ConnOutcome.ok spawnRes attempt2 inbound =
        (Except.error "Timeout reached", 0) ∧
      (Except.error "Timeout reached" : Except String (Option String)) ≠
        Except.ok none) := by
  refine ⟨?_, fun h => ?_, fun h => ?_, fun h => ?_⟩
  · cases attempt1 with
    | ok =>
        simp only [Daemon.status, Daemon.openConn]
        cases hf : inbound.findSome? (fun p =>
            match p with
            | .statusP v => some v
            | .otherP _ => none) <;> simp [hf]
    | err m =>
        by_cases hm : isConnRefused m <;> simp [Daemon.status, Daemon.openConn, hm]
  · simp [Daemon.status, Daemon.openConn, h]
  · simp [Daemon.status, Daemon.openConn, h]
  · refine ⟨?_, by simp⟩
    simp [Daemon.status, Daemon.openConn, findSome_status_eq_none h]

set_option maxRecDepth 8192 in
/-- Witness for C6 at concrete outcomes: a refused connect, a
non-refused transport failure, and a connected session whose window
holds no status reply. -/
theorem status_policy_witness :
    (Daemon.status ConnOutcome.ok (Except.ok ()) ConnOutcome.ok
      [StatusInbound.statusP "1.0.0"]).2 = 0 ∧
    Daemon.status (ConnOutcome.err "connect ECONNREFUSED 127.0.0.1:6532")
        (Except.ok ()) ConnOutcome.ok [] = (Except.ok none, 0) ∧
    Daemon.status (ConnOutcome.err "socket hang up") (Except.ok ())
        ConnOutcome.ok [] = (Except.error "socket hang up", 0) ∧
    Daemon.status ConnOutcome.ok (Except.ok ()) ConnOutcome.ok
        [StatusInbound.otherP "noise"] = (Except.error "Timeout reached", 0) := by
  have h1 := (status_policy "connect ECONNREFUSED 127.0.0.1:6532" (Except.ok ())
    ConnOutcome.ok [] ConnOutcome.ok).2.1 (by decide)
  have h2 := (status_policy "socket hang up" (Except.ok ())
    ConnOutcome.ok [] ConnOutcome.ok).2.2.1 (by decide)
  have h3 := (status_policy "" (Except.ok ()) ConnOutcome.ok
    [StatusInbound.otherP "noise"] ConnOutcome.ok).2.2.2 (by decide)
  exact ⟨(status_policy "" (Except.ok ()) ConnOutcome.ok
    [StatusInbound.statusP "1.0.0"] ConnOutcome.ok).1, h1, h2, h3.1⟩

/-- C7: the first worker-side restart request finds the guard unset,
sets it (the trace sets the guard before the spawn), closes the
listening socket, and spawns exactly one successor; any positive number
of further requests leaves the spawn count at one successor and never
clears the guard; a request finding the guard set is a no-op. -/
theorem restart_one_shot (s : WorkerState) (n : Nat) :
    (s.rebootInProgress = false →
      (Daemon.restart s).2 =
        [RStep.setGuard, RStep.closeSocket, RStep.spawnSuccessor] ∧
      (Daemon.restart s).1.rebootInProgress = true ∧
      (Daemon.restart s).1.listening = false ∧
      (Daemon.restart s).1.spawnCount = s.spawnCount + 1 ∧
      (Daemon.restartRun s (n + 1)).1.spawnCount = s.spawnCount + 1 ∧
      (Daemon.restartRun s (n + 1)).1.rebootInProgress = true) ∧
    (s.rebootInProgress = true →
      Daemon.restart s = (s, []) ∧ Daemon.restartRun s n = (s, [])) := by
  refine ⟨fun h => ?_, fun h => ?_⟩
  · have hstep : Daemon.restart s =
        ({ rebootInProgress := true, listening := false, spawnCount := s.spawnCount + 1 },
         [RStep.setGuard, RStep.closeSocket, RStep.spawnSuccessor]) := by
      simp [Daemon.restart, h]
    have hguard := restartRun_guarded n
      { rebootInProgress := true, listening := false, spawnCount := s.spawnCount + 1 } rfl
    refine ⟨?_, ?_, ?_, ?_, ?_, ?_⟩ <;> simp [Daemon.restartRun, hstep, hguard]
  · exact ⟨by simp [Daemon.restart, h], restartRun_guarded n s h⟩

/-- Witness for C7: a fresh listening worker handling three restart
requests spawns one successor, and a guarded worker ignores requests. -/
theorem restart_one_shot_witness :
    (Daemon.restart ⟨false, true, 0⟩).2 =
      [RStep.setGuard, RStep.closeSocket, RStep.spawnSuccessor] ∧
    (Daemon.restartRun ⟨false, true, 0⟩ 3).1.spawnCount = 1 ∧
    (Daemon.restartRun ⟨false, true, 0⟩ 3).1.rebootInProgress = true ∧
    Daemon.restart ⟨true, false, 1⟩ = (⟨true, false, 1⟩, []) := by
  have h1 := (restart_one_shot ⟨false, true, 0⟩ 2).1 (by decide)
  have h2 := (restart_one_shot ⟨true, false, 1⟩ 0).2 (by decide)
  exact ⟨h1.1, h1.2.2.2.2.1, h1.2.2.2.2.2, h2.1⟩

/-- The hook invocations recorded by the close listener are exactly the
registered hooks, in iteration order. -/
lemma hookCalls_map (l : List Nat) :
    (List.map SEvent.runHook l ++ [SEvent.signalClosed]).filterMap
      (fun e =>
        match e with
        | SEvent.runHook h => some h
        | _ => none) = l := by
  induction l with
  | nil => rfl
  | cons a l ih => simpa [List.filterMap_cons] using ih

/-- C8: on transport close the session's `connected` flag is false, the
flag update is the first recorded step (before any disconnect hook
runs), the hooks run sequentially in insertion order (the recorded hook
invocations are exactly the registered hook list), and, the hook set
holding no duplicates, each registered hook fires exactly once. -/
theorem transportClose_hooks (s : ClientSession) (hNd : s.hooks.Nodup) :
    (onTransportClose s).1.connected = false ∧
    (onTransportClose s).2.head? = some SEvent.setDisconnected ∧
    ((onTransportClose s).2.filterMap
      (fun e =>
        match e with
        | SEvent.runHook h => some h
        | _ => none)) = s.hooks ∧
    (∀ h ∈ s.hooks, (onTransportClose s).2.count (SEvent.runHook h) = 1) := by
  have hinj : Function.Injective SEvent.runHook := fun a b hab => by
    cases hab; rfl
  refine ⟨rfl, rfl, ?_, fun h hh => ?_⟩
  · simpa [onTransportClose, List.filterMap_cons] using hookCalls_map s.hooks
  · have hcount : s.hooks.count h = 1 := List.count_eq_one_of_mem hNd hh
    simp [onTransportClose, List.count_cons, List.count_append,
      List.count_map_of_injective _ _ hinj, hcount]

/-- Witness for C8: a connected session holding three distinct hooks. -/
theorem transportClose_hooks_witness :
    (onTransportClose ⟨true, [3, 1, 2]⟩).1.connected = false ∧
    (onTransportClose ⟨true, [3, 1, 2]⟩).2.head? = some SEvent.setDisconnected ∧
    ((onTransportClose ⟨true, [3, 1, 2]⟩).2.filterMap
      (fun e =>
        match e with
        | SEvent.runHook h => some h
        | _ => none)) = [3, 1, 2] ∧
    (onTransportClose ⟨true, [3, 1, 2]⟩).2.count (SEvent.runHook 1) = 1 := by
  have ht := transportClose_hooks ⟨true, [3, 1, 2]⟩ (by decide)
  exact ⟨ht.1, ht.2.1, ht.2.2.1, ht.2.2.2 1 (by decide)⟩

/-- C5: a `cli` frame whose declared version differs from the worker's
binary version is answered with a single rejection carrying a
user-facing (`UsageError`) version-mismatch failure, and the command
body is never started; when the versions agree the command body runs. -/
theorem cliVersionGate (args : List String) (v bv : Option String) (ctx : JVal)
    (sg : StackGen) (hom : Bool) (omr : Except JSValue JVal)
    (cr : Except JSValue Int) :
    (v ≠ bv →
      ∃ e : SerializedError,
        handleFrame ⟨bv, sg, hom, omr, cr⟩ (some (WPayload.cli args v ctx)) =
          [WAction.send (OutPayload.errorP e)] ∧
        e.isUsage = true ∧ e.message = mismatchMessage v bv) ∧
    (v ≠ bv →
      ∀ a, WAction.runCli a ∉
        handleFrame ⟨bv, sg, hom, omr, cr⟩ (some (WPayload.cli args v ctx))) ∧
    (v = bv →
      WAction.runCli args ∈
        handleFrame ⟨bv, sg, hom, omr, cr⟩ (some (WPayload.cli args v ctx))) := by
  refine ⟨fun h => ?_, fun h a => ?_, fun h => ?_⟩
  · exact ⟨errorToSerializable sg (.err (newUsageError sg (mismatchMessage v bv))),
      by simp [handleFrame, h], rfl, rfl⟩
  · simp [handleFrame, h]
  · simp [handleFrame, h]

/-- Witness for C5: a worker at version 1.0.0 receiving a 2.0.0-tagged
cli frame and a 1.0.0-tagged one. -/
theorem cliVersionGate_witness :
    (∃ e : SerializedError,
      handleFrame ⟨some "1.0.0", fun _ => none, false, Except.ok JVal.undef, Except.ok 0⟩
          (some (WPayload.cli ["foo"] (some "2.0.0") JVal.undef)) =
        [WAction.send (OutPayload.errorP e)] ∧
      e.isUsage = true ∧
      e.message = mismatchMessage (some "2.0.0") (some "1.0.0")) ∧
    (WAction.runCli ["foo"] ∉
      handleFrame ⟨some "1.0.0", fun _ => none, false, Except.ok JVal.undef, Except.ok 0⟩
        (some (WPayload.cli ["foo"] (some "2.0.0") JVal.undef))) ∧
    WAction.runCli ["foo"] ∈
      handleFrame ⟨some "1.0.0", fun _ => none, false, Except.ok JVal.undef, Except.ok 0⟩
        (some (WPayload.cli ["foo"] (some "1.0.0") JVal.undef)) := by
  have h1 := cliVersionGate ["foo"] (some "2.0.0") (some "1.0.0") JVal.undef
    (fun _ => none) false (Except.ok JVal.undef) (Except.ok 0)
  have h2 := cliVersionGate ["foo"] (some "1.0.0") (some "1.0.0") JVal.undef
    (fun _ => none) false (Except.ok JVal.undef) (Except.ok 0)
  exact ⟨h1.1 (by decide), h1.2.1 (by decide) ["foo"], h2.2.2 rfl⟩

/-- C4: over any sequence of correlated frames, a pending id's stored
callbacks receive at most one terminal delivery, so resolution and
rejection are mutually exclusive; a terminal frame for a pending id
deletes the entry and the deleted table no longer holds the id at the
moment the callback is invoked; frames for an id not in the table are
no-ops; and the id allocation loop of `Daemon.send` never returns an id
that is currently pending. -/
theorem correlationTable_exactly_once (t : MsgTable) (fs : List CFrame) (id : Nat)
    (d : JVal) (e : SerializedError) (draws : List Nat) :
    ((clientRun t fs).2.countP (isTerminalFor id) ≤ 1) ∧
    (id ∈ t →
      clientStep t (CFrame.resolveF id d) = (msgDelete t id, [CEvent.resolved id d]) ∧
      clientStep t (CFrame.rejectF id e) =
        (msgDelete t id, [CEvent.rejected id (serializableToError e)]) ∧
      id ∉ msgDelete t id) ∧
    (id ∉ t →
      clientStep t (CFrame.resolveF id d) = (t, []) ∧
      clientStep t (CFrame.rejectF id e) = (t, []) ∧
      clientStep t (CFrame.yieldF id d) = (t, [])) ∧
    (∀ i, allocateId t draws = some i → i ∉ t) := by
  refine ⟨clientRun_terminal_le_one id fs t, fun h => ?_, fun h => ?_, fun i hi => ?_⟩
  · exact ⟨by simp [clientStep, h], by simp [clientStep, h],
      not_mem_msgDelete_self t id⟩
  · exact ⟨by simp [clientStep, h], by simp [clientStep, h], by simp [clientStep, h]⟩
  · simp only [allocateId] at hi
    simpa using List.find?_some hi

/-- Witness for C4: a table holding ids 5 and 9, a double resolve of id
5, a frame for the unknown id 7, and an allocation drawing 7. -/
theorem correlationTable_exactly_once_witness :
    ((clientRun [5, 9] [CFrame.resolveF 5 JVal.undef,
        CFrame.resolveF 5 JVal.undef]).2.countP (isTerminalFor 5) ≤ 1) ∧
    clientStep [5, 9] (CFrame.resolveF 5 JVal.undef) =
      (msgDelete [5, 9] 5, [CEvent.resolved 5 JVal.undef]) ∧
    clientStep [5, 9] (CFrame.resolveF 7 JVal.undef) = ([5, 9], []) ∧
    (7 ∉ ([5, 9] : MsgTable)) := by
  have h1 := correlationTable_exactly_once [5, 9]
    [CFrame.resolveF 5 JVal.undef, CFrame.resolveF 5 JVal.undef] 5 JVal.undef
    ⟨"", none, false⟩ [7]
  have h2 := correlationTable_exactly_once [5, 9] [] 7 JVal.undef
    ⟨"", none, false⟩ [7]
  exact ⟨h1.1, (h1.2.1 (by decide)).1, (h2.2.2.1 (by decide)).1,
    h2.2.2.2 7 (by decide)⟩

/-- C3, refuted by the code: `Daemon.request` installs only a `message`
listener, and `Daemon.send` installs none, so a transport close reaches
no daemon code at all — the still-pending entries of `Daemon.messages`
are neither rejected nor removed. Evaluated at a connection holding one
pending correlated request (id 42), the close event leaves the entry
pending and delivers no terminal callback, against the claim that every
pending entry is rejected with a disconnection failure and removed. -/
theorem transportClose_leaves_pending :
    (∀ t : MsgTable, clientStep t CFrame.closeF = (t, [])) ∧
    clientRun [42] [CFrame.closeF] = ([42], []) ∧
    42 ∈ (clientRun [42] [CFrame.closeF]).1 ∧
    (clientRun [42] [CFrame.closeF]).2.countP (isTerminalFor 42) = 0 := by
  exact ⟨fun t => rfl, rfl, by decide, rfl⟩

end Griselbrand
